import Mathlib

/-!
Shallow embedding of the hot-reload state-preservation protocol of the
parcel_phaser_playground repository.

The repository contains two HMR (hot module replacement) variants:

* the destroying variant (`src/unnamed/part_000`): the module constructs the
  engine instance (`const game = new Phaser.Game(...)`) at top level on every
  evaluation; `module.hot.dispose` writes `{player, reloadCount}` into the
  carry-over bag and calls `game.destroy(true)`; `module.hot.accept` restores
  `_player` from the bag and sets `_reloadCount = data.reloadCount + 1`; the
  scene `create()` builds a fresh sprite and, when a snapshot exists, copies
  only its position.

* the carrying variant (`src/src/game.ts`, second half of
  `src/unnamed/part_002`): the engine instance itself travels through the bag;
  `module.hot.dispose` writes `{game, player, reloadCount}` and does not
  destroy; `module.hot.accept` reads the counter, increments it, restores
  `_game` and `_player`, and reapplies `setGravityY(GRAVITY_Y)`; construction
  on first load is deferred to a zero-delay `setTimeout` whose callback is
  guarded by `if (!_game)`.

Engine mutators (`setVelocityX`, `setFlipX`, `play`, ...) are modelled as pure
record updates on a `Player` record; module-level mutable globals become
fields of explicit state records; each lifecycle hook becomes a function on
those records.  Numbers are `Int` (all velocities, positions and gravity in
the source are integer literals) except the bounce coefficient `0.1`, which is
a `Rat`.
-/

namespace PhaserPlayground

/-- `GRAVITY_Y = 400`, the gravity constant of the reloadable modules. -/
def GRAVITY_Y : Int := 400

/-- Discrete keyboard input state for one frame: the four keys polled by
`update()` (`createCursorKeys`). `true` means `isDown`. -/
structure CursorKeys where
  left : Bool
  right : Bool
  up : Bool
  space : Bool
deriving DecidableEq

/-- The player sprite (`Physics.Arcade.SpriteWithDynamicBody`): position,
velocity, facing flip, gravity, bounce, world-bounds flag, the engine's
floor-contact query result for the current frame, the animation key last
played (`""` when none has been played), and alpha. -/
structure Player where
  x : Int
  y : Int
  velocityX : Int
  velocityY : Int
  flipX : Bool
  gravityY : Int
  bounce : Rat
  collideWorldBounds : Bool
  onFloor : Bool
  anim : String
  alpha : Int
deriving DecidableEq

/-- `player.setVelocityX(v)` -/
def Player.setVelocityX (p : Player) (v : Int) : Player := { p with velocityX := v }

/-- `player.setVelocityY(v)` -/
def Player.setVelocityY (p : Player) (v : Int) : Player := { p with velocityY := v }

/-- `player.setVelocity(vx, vy)` -/
def Player.setVelocity (p : Player) (vx vy : Int) : Player :=
  { p with velocityX := vx, velocityY := vy }

/-- `player.setFlipX(b)` -/
def Player.setFlipX (p : Player) (b : Bool) : Player := { p with flipX := b }

/-- `player.setPosition(x, y)` -/
def Player.setPosition (p : Player) (px py : Int) : Player := { p with x := px, y := py }

/-- `player.setX(x)` -/
def Player.setX (p : Player) (px : Int) : Player := { p with x := px }

/-- `player.setY(y)` -/
def Player.setY (p : Player) (py : Int) : Player := { p with y := py }

/-- `player.setGravityY(g)` -/
def Player.setGravityY (p : Player) (g : Int) : Player := { p with gravityY := g }

/-- `player.setBounce(b)` -/
def Player.setBounce (p : Player) (b : Rat) : Player := { p with bounce := b }

/-- `player.setCollideWorldBounds(b)` -/
def Player.setCollideWorldBounds (p : Player) (b : Bool) : Player :=
  { p with collideWorldBounds := b }

/-- `player.play(key, ignoreIfPlaying)` -/
def Player.play (p : Player) (key : String) (_ignoreIfPlaying : Bool) : Player :=
  { p with anim := key }

/-- `player.setAlpha(a)` -/
def Player.setAlpha (p : Player) (a : Int) : Player := { p with alpha := a }

/-- `this.physics.add.sprite(x, y, texture)`: a fresh sprite with engine
defaults (zero velocity, no flip, no gravity, alpha 1, no animation). -/
def mkSprite (px py : Int) (_texture : String) : Player :=
  { x := px, y := py, velocityX := 0, velocityY := 0, flipX := false,
    gravityY := 0, bounce := 0, collideWorldBounds := false,
    onFloor := false, anim := "", alpha := 1 }

/-- A tween as configured by `this.tweens.add({...})` in the spike collider
callback: target alpha, duration (ms), easing name, repeat count. -/
structure Tween where
  targetAlpha : Int
  duration : Nat
  ease : String
  repeatCount : Nat
deriving DecidableEq

/-- The blink tween added by the spike collider callback:
`{ targets: player, alpha: 1, duration: 100, ease: "Linear", repeat: 5 }`. -/
def blinkTween : Tween :=
  { targetAlpha := 1, duration := 100, ease := "Linear", repeatCount := 5 }

/-- Spike collider callback (`part_000` lines 95-108 / `app.ts`): zero the
velocity, teleport to the spawn coordinates (50, 300), play "idle", set alpha
to 0 and add the blink tween.  Returns the mutated player and the tween
list with the blink tween appended. -/
def spikeCollideCallback (player : Player) (tweens : List Tween) :
    Player × List Tween :=
  let player := player.setVelocity 0 0
  let player := player.setX 50
  let player := player.setY 300
  let player := player.play ("idle") true
  let player := player.setAlpha 0
  (player, tweens ++ [blinkTween])

/-- `MyScene.create()` of `src/src/game.ts` (lines 68-76): a fresh sprite at
(50, 300) with bounce 0.1, world-bounds collision and gravity; no position
copy (this variant never re-runs `create` after a reload, the engine instance
is carried over instead). -/
def MyScene.createPlayer : Player :=
  let p := mkSprite 50 300 ("player")
  let p := p.setBounce (1 / 10)
  let p := p.setCollideWorldBounds true
  let p := p.setGravityY GRAVITY_Y
  p

/-- `MyScene.update()` of `src/src/game.ts` (lines 77-102): horizontal
velocity from left/right, jump impulse when (space or up) and on the floor,
then facing flip from the just-assigned horizontal velocity. -/
def MyScene.update (cursors : CursorKeys) (p0 : Player) : Player :=
  let p1 :=
    if cursors.left then p0.setVelocityX (-200)
    else if cursors.right then p0.setVelocityX 200
    else p0.setVelocityX 0
  let p2 :=
    if (cursors.space || cursors.up) && p1.onFloor then p1.setVelocityY (-350)
    else p1
  let p3 :=
    if p2.velocityX > 0 then p2.setFlipX false
    else if p2.velocityX < 0 then p2.setFlipX true
    else p2
  p3

/-- Run `MyScene.update` over a list of per-frame inputs. -/
def runFrames (frames : List CursorKeys) (p : Player) : Player :=
  frames.foldl (fun q c => MyScene.update c q) p

/-- `MyScene.create()` of the destroying variant (`part_000` lines 24-44,
restricted to the player): fresh sprite at (50, 300), bounce, world bounds,
gravity, then `if (_player) player.setPosition(_player.x, _player.y)` — copy
only the position from the snapshot when one exists. -/
def FullScene.createPlayer (prev : Option Player) : Player :=
  let player := mkSprite 50 300 ("player")
  let player := player.setBounce (1 / 10)
  let player := player.setCollideWorldBounds true
  let player := player.setGravityY GRAVITY_Y
  match prev with
  | some old => player.setPosition old.x old.y
  | none => player

/-- `MyScene.update()` of the destroying variant (`part_000` lines 114-151):
as `MyScene.update` but also plays "walk"/"idle"/"jump" animations. -/
def FullScene.update (cursors : CursorKeys) (p0 : Player) : Player :=
  let p1 :=
    if cursors.left then
      let q := p0.setVelocityX (-200)
      if q.onFloor then q.play ("walk") true else q
    else if cursors.right then
      let q := p0.setVelocityX 200
      if q.onFloor then q.play ("walk") true else q
    else
      let q := p0.setVelocityX 0
      if q.onFloor then q.play ("idle") true else q
  let p2 :=
    if (cursors.space || cursors.up) && p1.onFloor then
      (p1.setVelocityY (-350)).play ("jump") true
    else p1
  let p3 :=
    if p2.velocityX > 0 then p2.setFlipX false
    else if p2.velocityX < 0 then p2.setFlipX true
    else p2
  p3

/-- The carry-over bag of the destroying variant (`part_000` lines 174-177):
`interface HMRData { player; reloadCount }`.  `player` is an `Option` because
the module-level `_player` is `undefined` until the first `create()`. -/
structure HMRData where
  player : Option Player
  reloadCount : Nat
deriving DecidableEq

/-- Process + module state of the destroying variant (`part_000`): the
module-level `_player` and `_reloadCount`, the current evaluation's `const
game` (as an id), plus process-level bookkeeping — the multiset of engine
instances currently alive, a fresh-id counter, and the active tween list. -/
structure FullState where
  player? : Option Player
  reloadCount : Nat
  gameId : Nat
  aliveGames : List Nat
  nextGameId : Nat
  tweens : List Tween
deriving DecidableEq

/-- `module.hot.dispose` of the destroying variant (`part_000` lines
180-186): write `data.player = _player` and `data.reloadCount =
_reloadCount`, then `game.destroy(true)` (the current instance leaves the
alive list).  Returns the bag and the post-hook state. -/
def FullModule.dispose (s : FullState) : HMRData × FullState :=
  let data : HMRData := { player := s.player?, reloadCount := s.reloadCount }
  (data, { s with aliveGames := s.aliveGames.erase s.gameId })

/-- Top-level re-evaluation of the destroying variant: the module-level
bindings start fresh (`_player` undefined, `_reloadCount = 0`) and
`const game = new Phaser.Game(...)` constructs a new engine instance. -/
def FullModule.evaluate (s : FullState) : FullState :=
  { s with player? := none, reloadCount := 0, gameId := s.nextGameId,
           aliveGames := s.nextGameId :: s.aliveGames,
           nextGameId := s.nextGameId + 1 }

/-- `module.hot.accept` of the destroying variant (`part_000` lines 187-191):
`_player = module.hot.data.player; _reloadCount = module.hot.data.reloadCount + 1`. -/
def FullModule.accept (data : HMRData) (s : FullState) : FullState :=
  { s with player? := data.player, reloadCount := data.reloadCount + 1 }

/-- The engine invoking the new scene's `create()` (guaranteed by the host to
run after `accept`): `_player = player` with the snapshot-aware creation. -/
def FullScene.createStep (s : FullState) : FullState :=
  { s with player? := some (FullScene.createPlayer s.player?) }

/-- One teardown → re-evaluation → accept cycle of the destroying variant,
in the host-guaranteed order. -/
def fullReloadCycle (s : FullState) : FullState :=
  let r := FullModule.dispose s
  FullModule.accept r.1 (FullModule.evaluate r.2)

/-- A full reload cycle followed by the new scene's `create()`. -/
def fullReloadCycleCreate (s : FullState) : FullState :=
  FullScene.createStep (fullReloadCycle s)

/-- The carry-over bag of the carrying variant (`game.ts` lines 12-16):
`interface HMRData { game; player; reloadCount }` — it includes the engine
instance itself. -/
structure CarryHMRData where
  game : Option Nat
  player : Option Player
  reloadCount : Nat
deriving DecidableEq

/-- Process + module state of the carrying variant (`game.ts`): the
module-level `_game`, `_player` and `_reloadCount`, process-level alive-set
and fresh-id bookkeeping, a count of `MyScene.create()` invocations, and
whether the zero-delay `setTimeout` continuation is still pending. -/
structure CarryState where
  game? : Option Nat
  player? : Option Player
  reloadCount : Nat
  aliveGames : List Nat
  nextGameId : Nat
  createCount : Nat
  timeoutPending : Bool
deriving DecidableEq

/-- `createGame()` (`game.ts` lines 45-63) together with the engine then
running `MyScene.create()`: a new engine instance becomes alive and the scene
builds the fresh player. -/
def createGame (s : CarryState) : CarryState :=
  { s with game? := some s.nextGameId,
           aliveGames := s.nextGameId :: s.aliveGames,
           nextGameId := s.nextGameId + 1,
           player? := some MyScene.createPlayer,
           createCount := s.createCount + 1 }

/-- Top-level (re-)evaluation of the carrying variant with `module.hot`
present: module-level bindings start fresh and the zero-delay `setTimeout`
continuation is scheduled (`game.ts` lines 35-40). -/
def evalCarryModule (s : CarryState) : CarryState :=
  { s with game? := none, player? := none, reloadCount := 0,
           timeoutPending := true }

/-- The `setTimeout` continuation firing (`game.ts` lines 35-40):
`if (!_game) { _game = createGame(); }`. -/
def timeoutTick (s : CarryState) : CarryState :=
  if s.timeoutPending then
    let s := { s with timeoutPending := false }
    if s.game? = none then createGame s else s
  else s

/-- `module.hot.dispose` of the carrying variant (`game.ts` lines 20-25):
write `data.game = _game`, `data.player = _player`,
`data.reloadCount = _reloadCount`; nothing is destroyed and the module state
is untouched. -/
def carryDispose (s : CarryState) : CarryHMRData × CarryState :=
  ({ game := s.game?, player := s.player?, reloadCount := s.reloadCount }, s)

/-- `module.hot.accept` of the carrying variant (`game.ts` lines 26-33):
read the counter, increment it, restore `_game` and `_player`, and reapply
`_player.setGravityY(GRAVITY_Y)`. -/
def carryAccept (data : CarryHMRData) (s : CarryState) : CarryState :=
  let reloadCount := data.reloadCount
  let reloadCount := reloadCount + 1
  { s with reloadCount := reloadCount,
           game? := data.game,
           player? := data.player.map (fun p => p.setGravityY GRAVITY_Y) }

/-- State right after `dispose` in a carrying-variant reload. -/
def carryMid1 (s : CarryState) : CarryState := (carryDispose s).2

/-- State right after the new module's top-level evaluation. -/
def carryMid2 (s : CarryState) : CarryState := evalCarryModule (carryMid1 s)

/-- State right after `accept` (host guarantee: before any timer fires). -/
def carryMid3 (s : CarryState) : CarryState :=
  carryAccept (carryDispose s).1 (carryMid2 s)

/-- One complete teardown → re-evaluation → accept → timer cycle of the
carrying variant, in the host-guaranteed order. -/
def carryReloadCycle (s : CarryState) : CarryState := timeoutTick (carryMid3 s)

/-- The process state at start, before the module is first evaluated. -/
def initialCarry : CarryState :=
  { game? := none, player? := none, reloadCount := 0, aliveGames := [],
    nextGameId := 0, createCount := 0, timeoutPending := false }

/-- First load with `module.hot` present: evaluate the module, then the
zero-delay continuation fires and constructs the engine instance. -/
def bootState : CarryState := timeoutTick (evalCarryModule initialCarry)

/-- Engine-instance uniqueness invariant of the carrying variant: the alive
list is exactly the instance `_game` points to (or empty when `_game` is
unset). -/
@[reducible] def CarryInv (s : CarryState) : Prop :=
  s.aliveGames = (match s.game? with | some g => [g] | none => [])

/-- Position projection of the module-level player slot. -/
def playerPos (p? : Option Player) : Option (Int × Int) :=
  p?.map (fun p => (p.x, p.y))

/-- A concrete player state used to instantiate the theorems below. -/
def cexPlayer : Player :=
  { x := 7, y := 9, velocityX := 200, velocityY := -4, flipX := false,
    gravityY := 400, bounce := 1 / 10, collideWorldBounds := true,
    onFloor := true, anim := "walk", alpha := 1 }

/-- A concrete destroying-variant state used to instantiate the theorems. -/
def fullCexState : FullState :=
  { player? := some cexPlayer, reloadCount := 3, gameId := 2,
    aliveGames := [2], nextGameId := 3, tweens := [] }

/-- A concrete carrying-variant state used to instantiate the theorems. -/
def carryCexState : CarryState :=
  { game? := some 0, player? := some cexPlayer, reloadCount := 3,
    aliveGames := [0], nextGameId := 1, createCount := 1,
    timeoutPending := false }

/-- As `carryCexState` but with a different engine instance in `_game` —
identical player snapshot and reload counter. -/
def carryCexState' : CarryState :=
  { carryCexState with game? := some 1 }

/-- No key pressed. -/
def noKeys : CursorKeys := { left := false, right := false, up := false, space := false }

/-- Only the right arrow pressed. -/
def rightKey : CursorKeys := { left := false, right := true, up := false, space := false }

/-- Both jump keys (up and space) pressed, nothing else. -/
def bothJumpKeys : CursorKeys := { left := false, right := false, up := true, space := true }

/-- Helper: when the left key is up, a frame never turns facing to the left
(the just-assigned horizontal velocity is 200 or 0, never negative). -/
theorem update_flip_of_left_up (c : CursorKeys) (p : Player)
    (hl : c.left = false) (hp : p.flipX = false) :
    (MyScene.update c p).flipX = false := by
  rcases c with ⟨l, r, u, sp⟩
  cases l with
  | true => cases hl
  | false =>
      cases r <;> cases u <;> cases sp <;> cases hfl : p.onFloor <;>
        simp_all [MyScene.update, Player.setVelocityX, Player.setVelocityY,
          Player.setFlipX]

/-- Helper: facing right survives any run of frames none of which presses
the left key. -/
theorem runFrames_flip_of_left_up (frames : List CursorKeys) :
    ∀ p : Player, p.flipX = false → (∀ c ∈ frames, c.left = false) →
      (runFrames frames p).flipX = false := by
  induction frames with
  | nil => intro p hp _; simpa [runFrames] using hp
  | cons c cs ih =>
      intro p hp hall
      have hc : c.left = false := hall c (List.mem_cons_self c cs)
      have hcs : ∀ d ∈ cs, d.left = false := fun d hd => hall d (List.mem_cons_of_mem c hd)
      have h1 : (MyScene.update c p).flipX = false := update_flip_of_left_up c p hc hp
      simpa [runFrames, List.foldl] using ih (MyScene.update c p) h1 hcs

/-- Helper: one full carrying-variant reload cycle adds exactly one to the
reload counter. -/
theorem carryReloadCycle_count (t : CarryState) :
    (carryReloadCycle t).reloadCount = t.reloadCount + 1 := by
  simp only [carryReloadCycle, carryMid3, carryMid2, carryMid1, carryDispose,
    carryAccept, evalCarryModule, timeoutTick, createGame]
  split
  · split <;> rfl
  · rfl

/-- Helper: one full destroying-variant reload cycle adds exactly one to the
reload counter. -/
theorem fullReloadCycle_count (s : FullState) :
    (fullReloadCycle s).reloadCount = s.reloadCount + 1 := rfl

/-- Helper: the engine-uniqueness invariant is preserved by a carrying-variant
reload cycle. -/
theorem carryInv_cycle (s : CarryState) (hs : CarryInv s) :
    CarryInv (carryReloadCycle s) := by
  unfold CarryInv at hs ⊢
  cases hg : s.game? with
  | some g =>
      simp [carryReloadCycle, carryMid3, carryMid2, carryMid1, carryDispose,
        carryAccept, evalCarryModule, timeoutTick, hg, hs, hg ▸ hs]
  | none =>
      rw [hg] at hs
      simp [carryReloadCycle, carryMid3, carryMid2, carryMid1, carryDispose,
        carryAccept, evalCarryModule, timeoutTick, createGame, hg, hs]

/-- Helper: under the invariant the alive list has length at most one. -/
theorem carryInv_length (s : CarryState) (hs : CarryInv s) :
    s.aliveGames.length ≤ 1 := by
  unfold CarryInv at hs
  cases hg : s.game? <;> rw [hg] at hs <;> simp [hs]

/-- Claim C1: position round-trips across a reload.  In the destroying
variant, if the module-level player holds position (x0, y0) at teardown, the
player freshly created by the next `create()` (which runs after `accept`)
has position (x0, y0).  In the carrying variant (where `create()` does not
re-run), the surviving player's position is likewise unchanged across the
teardown → accept → timer cycle. -/
theorem position_roundtrip (s : FullState) (p0 : Player)
    (hs : s.player? = some p0)
    (t : CarryState) (q0 : Player) (ht : t.player? = some q0)
    (g : Nat) (hg : t.game? = some g) :
    playerPos (fullReloadCycleCreate s).player? = some (p0.x, p0.y) ∧
    playerPos (carryReloadCycle t).player? = some (q0.x, q0.y) := by
  constructor
  · simp [fullReloadCycleCreate, fullReloadCycle, FullModule.dispose,
      FullModule.evaluate, FullModule.accept, FullScene.createStep,
      FullScene.createPlayer, mkSprite, Player.setBounce,
      Player.setCollideWorldBounds, Player.setGravityY, Player.setPosition,
      playerPos, hs]
  · simp [carryReloadCycle, carryMid3, carryMid2, carryMid1, carryDispose,
      carryAccept, evalCarryModule, timeoutTick, playerPos, ht, hg,
      Player.setGravityY]

/-- Witness for C1 at a concrete pre-teardown state: the player sits at
(7, 9) before teardown and at (7, 9) after the reload completes, in both
variants. -/
theorem position_roundtrip_witness :
    playerPos (fullReloadCycleCreate fullCexState).player? = some (7, 9) ∧
    playerPos (carryReloadCycle carryCexState).player? = some (7, 9) :=
  position_roundtrip fullCexState cexPlayer rfl carryCexState cexPlayer rfl 0 rfl

/-- Counterexample to claim C2: at the cited `game.ts` dispose hook (the
carrying variant) the teardown destroys nothing — at a concrete state with
engine instance 0 alive, dispose leaves the whole module state (alive set
included) unchanged, so instance 0 is still alive when the hook returns. -/
theorem teardown_no_destroy_cex :
    (carryDispose carryCexState).2 = carryCexState ∧
    0 ∈ (carryDispose carryCexState).2.aliveGames :=
  ⟨rfl, by decide⟩

/-- Claim C2 (amended): every dispose hook writes the live player and the
current reload counter into the carry-over bag; the destroying variant
(`part_000`) additionally removes the current engine instance from the alive
set (the explicit `game.destroy(true)`), while the carrying variant
(`game.ts`) also writes the engine instance into the bag and destroys
nothing, leaving the module state untouched. -/
theorem teardown_effect (s : FullState) (hnd : s.aliveGames.Nodup)
    (t : CarryState) :
    (FullModule.dispose s).1 =
      { player := s.player?, reloadCount := s.reloadCount } ∧
    (FullModule.dispose s).2.aliveGames = s.aliveGames.erase s.gameId ∧
    s.gameId ∉ (FullModule.dispose s).2.aliveGames ∧
    (carryDispose t).1 =
      { game := t.game?, player := t.player?, reloadCount := t.reloadCount } ∧
    (carryDispose t).2 = t := by
  refine ⟨rfl, rfl, ?_, rfl, rfl⟩
  simp [FullModule.dispose, hnd.mem_erase_iff]

/-- Witness for C2: after dispose of the concrete destroying-variant state,
engine instance 2 (the current one) is no longer alive, while the concrete
carrying-variant dispose leaves its state unchanged. -/
theorem teardown_effect_witness :
    2 ∉ (FullModule.dispose fullCexState).2.aliveGames ∧
    (carryDispose carryCexState).2 = carryCexState :=
  ⟨(teardown_effect fullCexState (by decide) carryCexState).2.2.1,
   (teardown_effect fullCexState (by decide) carryCexState).2.2.2.2⟩

/-- Claim C3: the reload counter increases by exactly one across every
teardown → accept pair, in both variants, and over any number of reload
cycles it equals the initial value plus the number of cycles (so it is never
decremented or reset). -/
theorem reload_counter_increments (s : FullState) (t : CarryState) (n : Nat) :
    (fullReloadCycle s).reloadCount = s.reloadCount + 1 ∧
    (carryReloadCycle t).reloadCount = t.reloadCount + 1 ∧
    (fullReloadCycle^[n] s).reloadCount = s.reloadCount + n ∧
    (carryReloadCycle^[n] t).reloadCount = t.reloadCount + n := by
  refine ⟨fullReloadCycle_count s, carryReloadCycle_count t, ?_, ?_⟩
  · induction n with
    | zero => simp
    | succ m ih =>
        rw [Function.iterate_succ_apply', fullReloadCycle_count, ih]
        omega
  · induction n with
    | zero => simp
    | succ m ih =>
        rw [Function.iterate_succ_apply', carryReloadCycle_count, ih]
        omega

/-- Claim C4: at most one engine instance is alive at any point — after
boot, after each step of a reload cycle, and after any number of cycles —
and the deferred `setTimeout` construction path builds an instance only when
none exists (when `_game` is set it neither creates nor destroys). -/
theorem single_engine_instance (s : CarryState) (hs : CarryInv s)
    (t : CarryState) (g : Nat) (ht : t.game? = some g) :
    CarryInv bootState ∧
    bootState.aliveGames.length ≤ 1 ∧
    CarryInv (carryReloadCycle s) ∧
    (carryMid1 s).aliveGames.length ≤ 1 ∧
    (carryMid2 s).aliveGames.length ≤ 1 ∧
    (carryMid3 s).aliveGames.length ≤ 1 ∧
    (carryReloadCycle s).aliveGames.length ≤ 1 ∧
    (timeoutTick t).aliveGames = t.aliveGames ∧
    (timeoutTick t).createCount = t.createCount ∧
    (∀ n : Nat, (carryReloadCycle^[n] bootState).aliveGames.length ≤ 1) := by
  have hboot : CarryInv bootState := by decide
  have htick : (timeoutTick t).aliveGames = t.aliveGames ∧
      (timeoutTick t).createCount = t.createCount := by
    simp only [timeoutTick]
    split
    · rw [if_neg (by simp [ht])]
      exact ⟨rfl, rfl⟩
    · exact ⟨rfl, rfl⟩
  have hmid1 : (carryMid1 s).aliveGames = s.aliveGames := rfl
  have hmid2 : (carryMid2 s).aliveGames = s.aliveGames := rfl
  have hmid3 : (carryMid3 s).aliveGames = s.aliveGames := rfl
  have hlen := carryInv_length s hs
  refine ⟨hboot, carryInv_length _ hboot, carryInv_cycle s hs, ?_, ?_, ?_,
    carryInv_length _ (carryInv_cycle s hs), htick.1, htick.2, ?_⟩
  · rw [hmid1]; exact hlen
  · rw [hmid2]; exact hlen
  · rw [hmid3]; exact hlen
  · intro n
    have : CarryInv (carryReloadCycle^[n] bootState) := by
      induction n with
      | zero => simpa using hboot
      | succ m ih => rw [Function.iterate_succ_apply']; exact carryInv_cycle _ ih
    exact carryInv_length _ this

/-- Witness for C4 at the concrete carrying-variant state (instance 0 alive,
`_game = 0`): the invariant survives a reload cycle. -/
theorem single_engine_instance_witness :
    CarryInv (carryReloadCycle carryCexState) :=
  (single_engine_instance carryCexState (by decide) carryCexState 0 rfl).2.2.1

/-- Claim C5: in every frame, the jump impulse (`velocityY = -350`) is set
if and only if the player is floor-contacting and up or space is pressed;
otherwise (in particular whenever airborne, whatever the input) the vertical
velocity is left unchanged. -/
theorem jump_impulse_iff (c : CursorKeys) (p : Player)
    (hvy : p.velocityY ≠ -350) :
    ((MyScene.update c p).velocityY = -350 ↔
      (p.onFloor = true ∧ (c.up = true ∨ c.space = true))) ∧
    (p.onFloor = false → (MyScene.update c p).velocityY = p.velocityY) ∧
    (¬(p.onFloor = true ∧ (c.up = true ∨ c.space = true)) →
      (MyScene.update c p).velocityY = p.velocityY) := by
  rcases c with ⟨l, r, u, sp⟩
  cases l <;> cases r <;> cases u <;> cases sp <;> cases hfl : p.onFloor <;>
    simp_all [MyScene.update, Player.setVelocityX, Player.setVelocityY,
      Player.setFlipX]

/-- Witness for C5: a floor-contacting player with both jump keys pressed
receives the impulse, and the same player airborne with both keys pressed
does not. -/
theorem jump_impulse_iff_witness :
    ((MyScene.update bothJumpKeys cexPlayer).velocityY = -350 ↔
      (cexPlayer.onFloor = true ∧
        (bothJumpKeys.up = true ∨ bothJumpKeys.space = true))) ∧
    (cexPlayer.onFloor = false →
      (MyScene.update bothJumpKeys cexPlayer).velocityY = cexPlayer.velocityY) ∧
    (¬(cexPlayer.onFloor = true ∧
        (bothJumpKeys.up = true ∨ bothJumpKeys.space = true)) →
      (MyScene.update bothJumpKeys cexPlayer).velocityY = cexPlayer.velocityY) :=
  jump_impulse_iff bothJumpKeys cexPlayer (by decide)

/-- Claim C6: facing is sticky.  Any frame whose assigned horizontal
velocity is zero (neither left nor right pressed) leaves `flipX` unchanged,
and once the player faces right, it keeps facing right across every
subsequent frame until one with negative horizontal velocity (a left press)
occurs. -/
theorem facing_sticky (p : Player) (frames : List CursorKeys) :
    (∀ c : CursorKeys, c.left = false → c.right = false →
      (MyScene.update c p).flipX = p.flipX) ∧
    (p.flipX = false → (∀ c ∈ frames, c.left = false) →
      (runFrames frames p).flipX = false) := by
  constructor
  · intro c hl hr
    rcases c with ⟨l, r, u, sp⟩
    cases hl; cases hr
    cases u <;> cases sp <;> cases hfl : p.onFloor <;>
      simp_all [MyScene.update, Player.setVelocityX, Player.setVelocityY,
        Player.setFlipX]
  · intro hp hall
    exact runFrames_flip_of_left_up frames p hp hall

/-- Witness for C6: the concrete right-facing player stays right-facing over
an idle frame, a rightward frame and another idle frame. -/
theorem facing_sticky_witness :
    (runFrames [noKeys, rightKey, noKeys] cexPlayer).flipX = false :=
  (facing_sticky cexPlayer [noKeys, rightKey, noKeys]).2 (by decide) (by decide)

/-- Counterexample to claim C7: in the carrying variant (`game.ts`) the bag
written at teardown has a third component.  Two states with identical player
snapshot and reload counter but different `_game` produce different registry
entries, and the accept hook observably reads that third component. -/
theorem registry_entry_three_components_cex :
    carryCexState.player? = carryCexState'.player? ∧
    carryCexState.reloadCount = carryCexState'.reloadCount ∧
    (carryDispose carryCexState).1 ≠ (carryDispose carryCexState').1 ∧
    (carryAccept (carryDispose carryCexState).1 initialCarry).game? ≠
      (carryAccept (carryDispose carryCexState').1 initialCarry).game? := by
  refine ⟨rfl, rfl, ?_, ?_⟩ <;> decide

/-- Claim C7 (amended): the destroying variant's registry entry consists of
exactly the player snapshot and the reload counter; the carrying variant's
entry additionally includes the engine-instance reference. -/
theorem registry_entry_components (s : FullState) (t : CarryState) :
    (FullModule.dispose s).1 =
      { player := s.player?, reloadCount := s.reloadCount } ∧
    (carryDispose t).1 =
      { game := t.game?, player := t.player?, reloadCount := t.reloadCount } :=
  ⟨rfl, rfl⟩

/-- Claim C8: the hazard (spike) collision reaction zeroes both velocity
components, teleports the player to the spawn coordinates (50, 300), plays
"idle", and adds the fixed five-repeat blink tween; and none of it is
persisted across reloads — the registry entry is independent of the tween
list, and a freshly created post-reload player has default alpha and no
animation (only position is copied). -/
theorem hazard_reaction (p : Player) (tweens : List Tween) (s : FullState)
    (tweens' : List Tween) (old : Player) :
    (spikeCollideCallback p tweens).1.velocityX = 0 ∧
    (spikeCollideCallback p tweens).1.velocityY = 0 ∧
    (spikeCollideCallback p tweens).1.x = 50 ∧
    (spikeCollideCallback p tweens).1.y = 300 ∧
    (spikeCollideCallback p tweens).1.anim = "idle" ∧
    (spikeCollideCallback p tweens).1.alpha = 0 ∧
    (spikeCollideCallback p tweens).2 = tweens ++ [blinkTween] ∧
    blinkTween.repeatCount = 5 ∧
    (FullModule.dispose { s with tweens := tweens' }).1 =
      (FullModule.dispose s).1 ∧
    (FullScene.createPlayer (some old)).alpha = 1 ∧
    (FullScene.createPlayer (some old)).anim = "" :=
  ⟨rfl, rfl, rfl, rfl, rfl, rfl, rfl, rfl, rfl, rfl, rfl⟩

/-- Claim C9: the dispose hook leaves the module-level player reference and
reload counter unchanged — in the destroying variant it only copies them
into the bag (and destroys the engine instance), and in the carrying variant
it leaves the whole module state untouched. -/
theorem dispose_preserves_module_state (s : FullState) (t : CarryState) :
    (FullModule.dispose s).2.player? = s.player? ∧
    (FullModule.dispose s).2.reloadCount = s.reloadCount ∧
    (carryDispose t).2 = t :=
  ⟨rfl, rfl, rfl⟩

/-- Claim C10: in the carrying variant, the accept hook immediately restores
the surviving player with `setGravityY(GRAVITY_Y)` (gravity 400), and no
`create()` of the new module runs — the create count is unchanged both right
after accept and after the rest of the reload cycle. -/
theorem accept_restores_gravity (s : CarryState) (p0 : Player) (g : Nat)
    (hp : s.player? = some p0) (hg : s.game? = some g) :
    (carryMid3 s).player? = some (p0.setGravityY GRAVITY_Y) ∧
    (p0.setGravityY GRAVITY_Y).gravityY = 400 ∧
    (carryMid3 s).createCount = s.createCount ∧
    (carryReloadCycle s).createCount = s.createCount := by
  refine ⟨?_, rfl, rfl, ?_⟩
  · simp [carryMid3, carryMid2, carryMid1, carryDispose, carryAccept,
      evalCarryModule, hp]
  · simp [carryReloadCycle, carryMid3, carryMid2, carryMid1, carryDispose,
      carryAccept, evalCarryModule, timeoutTick, hg]

/-- Witness for C10 at the concrete carrying-variant state: right after
accept the surviving player carries gravity 400 and no scene creation has
run. -/
theorem accept_restores_gravity_witness :
    (carryMid3 carryCexState).player? =
      some (cexPlayer.setGravityY GRAVITY_Y) ∧
    (cexPlayer.setGravityY GRAVITY_Y).gravityY = 400 ∧
    (carryMid3 carryCexState).createCount = carryCexState.createCount ∧
    (carryReloadCycle carryCexState).createCount = carryCexState.createCount :=
  accept_restores_gravity carryCexState cexPlayer 0 rfl rfl

end PhaserPlayground
